import Mathlib

/-!
Shallow embedding of `world_models/data/loaders.py`: two dataset classes
indexing a pre-collected rollout buffer.

* `RolloutSequenceDataset` (Mode A) exposes fixed-length contiguous
  windows of multi-episode trajectories.
* `RolloutObservationDataset` (Mode B) exposes single flattened
  observation rows of width 60.

A tensor is modelled by its two leading dimensions plus an entry
function; the trailing per-timestep axes of a field are folded into the
entry type `α` (so the trailing `[..., :]` slices in the source are
no-ops here).  Python / torch indexing semantics are embedded
explicitly: integer indexing on the leading axis rejects indices outside
`[-d0, d0)` and wraps negative ones; slice endpoints are clamped and a
slice never fails; `//` and `%` are floor division and floor modulus
(`Int.fdiv` / `Int.fmod`).  Fallible operations return `Option`, with
`none` standing for a raised exception.
-/

/-- A dense array seen through its two leading axes: `d0 × d1` logical
entries, `entry i j` the payload at `(i, j)`, the trailing axes folded
into `α`.  Entries outside `d0 × d1` are never consulted. -/
structure Tensor2 (α : Type) where
  d0 : Nat
  d1 : Nat
  entry : Nat → Nat → α

namespace Tensor2

variable {α : Type}

/-- `t.transpose(0, 1)`: swap the two leading axes. -/
def transpose01 (x : Tensor2 α) : Tensor2 α :=
  ⟨x.d1, x.d0, fun i j => x.entry j i⟩

/-- `.contiguous()`: a memory-layout operation, logically the identity. -/
def contiguous (x : Tensor2 α) : Tensor2 α := x

/-- `t[:k]` for `0 ≤ k`: keep the first `min k d0` rows of the leading
axis. -/
def takeRows (x : Tensor2 α) (k : Nat) : Tensor2 α :=
  ⟨min k x.d0, x.d1, x.entry⟩

/-- `t[k:]` for `0 ≤ k`: drop the first `k` rows of the leading axis. -/
def dropRows (x : Tensor2 α) (k : Nat) : Tensor2 α :=
  ⟨x.d0 - k, x.d1, fun i j => x.entry (k + i) j⟩

/-- Effective row position for Python integer indexing against axis
length `d0`: a negative index counts from the end. -/
def effIdx (d0 : Nat) (idx : Int) : Nat :=
  (if idx < 0 then (d0 : Int) + idx else idx).toNat

/-- Normalisation of a Python slice endpoint against axis length `n`:
a negative endpoint counts from the end; the result is clamped to
`[0, n]`. -/
def sliceBound (n : Nat) (a : Int) : Nat :=
  if a < 0 then ((n : Int) + a).toNat else min a.toNat n

/-- `x[idx, a:b]`: integer indexing on the leading axis (fails outside
`[-d0, d0)`, wraps when negative) combined with the clamped slice
`[a:b]` on the second axis. -/
def sliceRow (x : Tensor2 α) (idx a b : Int) : Option (List α) :=
  if -(x.d0 : Int) ≤ idx ∧ idx < (x.d0 : Int) then
    some ((List.range (sliceBound x.d1 b - sliceBound x.d1 a)).map
      (fun t => x.entry (effIdx x.d0 idx) (sliceBound x.d1 a + t)))
  else none

/-- `x[idx]`: integer indexing on the leading axis alone; the full row,
as a list of length `d1`. -/
def row (x : Tensor2 α) (idx : Int) : Option (List α) :=
  if -(x.d0 : Int) ≤ idx ∧ idx < (x.d0 : Int) then
    some ((List.range x.d1).map (fun j => x.entry (effIdx x.d0 idx) j))
  else none

/-- The contiguous window of length `L` starting at position `(e, s)`:
the value of `x[e, s : s + L]` when it lies fully in range. -/
def window (x : Tensor2 α) (e s L : Nat) : List α :=
  (List.range L).map (fun t => x.entry e (s + t))

/-- Row `e` of `x` as a list of length `d1`. -/
def rowList (x : Tensor2 α) (e : Nat) : List α :=
  (List.range x.d1).map (fun j => x.entry e j)

end Tensor2

/-- `int(0.8 * n)`, the 80% split boundary.  The source computes this
with IEEE-754 double arithmetic; for every `n` below `2 ^ 51` (hence for
every representable episode or row count) that computation returns
exactly `⌊4 * n / 5⌋`, which is what we define. -/
def splitIdx (n : Nat) : Nat := 4 * n / 5

/-- `buf[:split_idx]` when `train`, else `buf[split_idx:]`. -/
def splitKeep {α : Type} (train : Bool) (k : Nat) (x : Tensor2 α) : Tensor2 α :=
  if train then x.takeRows k else x.dropRows k

/-- The deserialised pickle for Mode A: five fields, each shaped
`(timesteps, episodes, …)` (timestep-major, as stored on disk). -/
structure RawRollout (α : Type) where
  obs : Tensor2 α
  action : Tensor2 α
  reward : Tensor2 α
  done : Tensor2 α
  next_obs : Tensor2 α

/-- The Mode A flat-index decomposition
`i ↦ (i // seq_num, i % seq_num)`, Python floor division and modulus. -/
def flatDecompose (seqNum i : Int) : Int × Int :=
  (Int.fdiv i seqNum, Int.fmod i seqNum)

/-- Mode A state after `__init__`: the five fields transposed to
`(episodes, timesteps, …)` and restricted to the train or test episode
range, plus `seq_len` and the cached `seq_num`. -/
structure RolloutSequenceDataset (α : Type) where
  obs : Tensor2 α
  action : Tensor2 α
  reward : Tensor2 α
  done : Tensor2 α
  next_obs : Tensor2 α
  seq_len : Nat
  train : Bool
  seq_num : Int

namespace RolloutSequenceDataset

variable {α : Type}

/-- `RolloutSequenceDataset.__init__`: transpose every field from
`(timesteps, episodes, …)` to `(episodes, timesteps, …)` and make it
contiguous; compute `split_idx = int(0.8 * episode_count)` from the
transposed `obs`; keep the train or test episode range of every field;
record `seq_len` and cache `seq_num = num_timesteps - seq_len + 1`. -/
def init (raw : RawRollout α) (seq_len : Nat) (train : Bool) :
    RolloutSequenceDataset α :=
  let tobs := raw.obs.transpose01.contiguous
  let taction := raw.action.transpose01.contiguous
  let treward := raw.reward.transpose01.contiguous
  let tdone := raw.done.transpose01.contiguous
  let tnext := raw.next_obs.transpose01.contiguous
  let split_idx := splitIdx tobs.d0
  let obs := splitKeep train split_idx tobs
  { obs := obs
    action := splitKeep train split_idx taction
    reward := splitKeep train split_idx treward
    done := splitKeep train split_idx tdone
    next_obs := splitKeep train split_idx tnext
    seq_len := seq_len
    train := train
    seq_num := (obs.d1 : Int) - (seq_len : Int) + 1 }

/-- `__len__`: `seq_num * episodes_in_split`, a Python `int`. -/
def len (d : RolloutSequenceDataset α) : Int :=
  d.seq_num * (d.obs.d0 : Int)

/-- `__getitem__(i)`: decompose `i` by `seq_num` and slice every field
as `field[idx1, idx2 : idx2 + seq_len]`, in source order.  `none` models
a raised exception: `ZeroDivisionError` when `seq_num = 0`, or an
`IndexError` from the first field whose episode index is out of
range. -/
def getitem (d : RolloutSequenceDataset α) (i : Int) :
    Option (List α × List α × List α × List α × List α) :=
  if d.seq_num = 0 then none
  else
    let idx1 := (flatDecompose d.seq_num i).1
    let idx2 := (flatDecompose d.seq_num i).2
    (d.obs.sliceRow idx1 idx2 (idx2 + (d.seq_len : Int))).bind (fun o =>
      (d.action.sliceRow idx1 idx2 (idx2 + (d.seq_len : Int))).bind (fun a =>
        (d.reward.sliceRow idx1 idx2 (idx2 + (d.seq_len : Int))).bind (fun r =>
          (d.done.sliceRow idx1 idx2 (idx2 + (d.seq_len : Int))).bind (fun dn =>
            (d.next_obs.sliceRow idx1 idx2 (idx2 + (d.seq_len : Int))).map (fun no =>
              (o, a, r, dn, no))))))

end RolloutSequenceDataset

/-- The flattened view `obs.view(-1, 60)` of the observation field,
whose elements are listed flat in `flat`: row `r`, column `c` holds
element `60 * r + c`. -/
def view60 {α : Type} [Inhabited α] (flat : List α) : Tensor2 α :=
  ⟨flat.length / 60, 60, fun r c => flat.getD (60 * r + c) default⟩

/-- Mode B state after `__init__`: the flattened observation matrix,
restricted to the train or test row range. -/
structure RolloutObservationDataset (α : Type) where
  buffer : Tensor2 α
  train : Bool

namespace RolloutObservationDataset

variable {α : Type}

/-- `RolloutObservationDataset.__init__`: reshape the `obs` field to
`(-1, 60)` — which raises (here: `none`) unless the element count is
divisible by 60 — then keep the train or test row range at
`split_pos = int(0.8 * row_count)`. -/
def init [Inhabited α] (flat : List α) (train : Bool) :
    Option (RolloutObservationDataset α) :=
  if flat.length % 60 = 0 then
    some ⟨splitKeep train (splitIdx (view60 flat).d0) (view60 flat), train⟩
  else none

/-- `__len__`: the number of rows of the split matrix. -/
def len (d : RolloutObservationDataset α) : Nat := d.buffer.d0

/-- `__getitem__(i)`: row `i` of the split matrix, with torch integer
indexing (fails outside `[-len, len)`, wraps when negative). -/
def getitem (d : RolloutObservationDataset α) (i : Int) : Option (List α) :=
  d.buffer.row i

end RolloutObservationDataset

/-- Concrete fixture: a raw rollout with 3 timesteps, 5 episodes, and
`Nat` payloads that distinguish every field and position. -/
def sampleRaw : RawRollout Nat :=
  ⟨⟨3, 5, fun t e => 100 * t + e⟩,
   ⟨3, 5, fun t e => 1000 + 100 * t + e⟩,
   ⟨3, 5, fun t e => 2000 + 100 * t + e⟩,
   ⟨3, 5, fun t e => 3000 + 100 * t + e⟩,
   ⟨3, 5, fun t e => 4000 + 100 * t + e⟩⟩

/-- Concrete fixture: a flat observation buffer of 120 elements, hence
2 rows of width 60. -/
def sampleFlat : List Nat := List.range 120

/-- Concrete fixture: a flat observation buffer of 6000 elements, hence
100 rows of width 60. -/
def bigFlat : List Nat := List.range 6000

/-- Concrete fixture: the Mode B train dataset built from
`sampleFlat`. -/
def sampleObsB : RolloutObservationDataset Nat :=
  ⟨splitKeep true (splitIdx (view60 sampleFlat).d0) (view60 sampleFlat), true⟩

/-- All five fields of a raw buffer share the leading dimensions
`(timesteps, episodes) = (T, E)` — the shape invariant of §3 of the data
model. -/
def RawRollout.rect {α : Type} (raw : RawRollout α) (T E : Nat) : Prop :=
  raw.obs.d0 = T ∧ raw.obs.d1 = E ∧ raw.action.d0 = T ∧ raw.action.d1 = E ∧
  raw.reward.d0 = T ∧ raw.reward.d1 = E ∧ raw.done.d0 = T ∧ raw.done.d1 = E ∧
  raw.next_obs.d0 = T ∧ raw.next_obs.d1 = E

/-- `x` is exactly the episode block `[k, k + n)` of the timestep-major
original `orig`, transposed to episode-major: `n` episodes, all of
`orig`'s timesteps, entry `(e, t)` coming from `orig` at `(t, k + e)`. -/
def isEpisodeBlock {α : Type} (x orig : Tensor2 α) (k n : Nat) : Prop :=
  x.d0 = n ∧ x.d1 = orig.d0 ∧ ∀ e t, x.entry e t = orig.entry t (k + e)

@[simp] lemma Tensor2.transpose01_d0 {α : Type} (x : Tensor2 α) :
    x.transpose01.d0 = x.d1 := rfl

@[simp] lemma Tensor2.transpose01_d1 {α : Type} (x : Tensor2 α) :
    x.transpose01.d1 = x.d0 := rfl

@[simp] lemma Tensor2.transpose01_entry {α : Type} (x : Tensor2 α) (i j : Nat) :
    x.transpose01.entry i j = x.entry j i := rfl

@[simp] lemma Tensor2.contiguous_eq {α : Type} (x : Tensor2 α) : x.contiguous = x := rfl

@[simp] lemma Tensor2.takeRows_d0 {α : Type} (x : Tensor2 α) (k : Nat) :
    (x.takeRows k).d0 = min k x.d0 := rfl

@[simp] lemma Tensor2.takeRows_d1 {α : Type} (x : Tensor2 α) (k : Nat) :
    (x.takeRows k).d1 = x.d1 := rfl

@[simp] lemma Tensor2.takeRows_entry {α : Type} (x : Tensor2 α) (k i j : Nat) :
    (x.takeRows k).entry i j = x.entry i j := rfl

@[simp] lemma Tensor2.dropRows_d0 {α : Type} (x : Tensor2 α) (k : Nat) :
    (x.dropRows k).d0 = x.d0 - k := rfl

@[simp] lemma Tensor2.dropRows_d1 {α : Type} (x : Tensor2 α) (k : Nat) :
    (x.dropRows k).d1 = x.d1 := rfl

@[simp] lemma Tensor2.dropRows_entry {α : Type} (x : Tensor2 α) (k i j : Nat) :
    (x.dropRows k).entry i j = x.entry (k + i) j := rfl

@[simp] lemma Tensor2.window_length {α : Type} (x : Tensor2 α) (e s L : Nat) :
    (x.window e s L).length = L := by simp [Tensor2.window]

@[simp] lemma splitKeep_d0 {α : Type} (train : Bool) (k : Nat) (x : Tensor2 α) :
    (splitKeep train k x).d0 = if train then min k x.d0 else x.d0 - k := by
  cases train <;> simp [splitKeep]

@[simp] lemma splitKeep_d1 {α : Type} (train : Bool) (k : Nat) (x : Tensor2 α) :
    (splitKeep train k x).d1 = x.d1 := by
  cases train <;> simp [splitKeep]

lemma splitKeep_entry {α : Type} (train : Bool) (k : Nat) (x : Tensor2 α) (i j : Nat) :
    (splitKeep train k x).entry i j = if train then x.entry i j else x.entry (k + i) j := by
  cases train <;> simp [splitKeep]

@[simp] lemma RolloutSequenceDataset.init_obs {α : Type} (raw : RawRollout α) (L : Nat) (tr : Bool) :
    (RolloutSequenceDataset.init raw L tr).obs
      = splitKeep tr (splitIdx raw.obs.d1) raw.obs.transpose01 := rfl

@[simp] lemma RolloutSequenceDataset.init_action {α : Type} (raw : RawRollout α) (L : Nat) (tr : Bool) :
    (RolloutSequenceDataset.init raw L tr).action
      = splitKeep tr (splitIdx raw.obs.d1) raw.action.transpose01 := rfl

@[simp] lemma RolloutSequenceDataset.init_reward {α : Type} (raw : RawRollout α) (L : Nat) (tr : Bool) :
    (RolloutSequenceDataset.init raw L tr).reward
      = splitKeep tr (splitIdx raw.obs.d1) raw.reward.transpose01 := rfl

@[simp] lemma RolloutSequenceDataset.init_done {α : Type} (raw : RawRollout α) (L : Nat) (tr : Bool) :
    (RolloutSequenceDataset.init raw L tr).done
      = splitKeep tr (splitIdx raw.obs.d1) raw.done.transpose01 := rfl

@[simp] lemma RolloutSequenceDataset.init_next_obs {α : Type} (raw : RawRollout α) (L : Nat) (tr : Bool) :
    (RolloutSequenceDataset.init raw L tr).next_obs
      = splitKeep tr (splitIdx raw.obs.d1) raw.next_obs.transpose01 := rfl

@[simp] lemma RolloutSequenceDataset.init_seq_len {α : Type} (raw : RawRollout α) (L : Nat) (tr : Bool) :
    (RolloutSequenceDataset.init raw L tr).seq_len = L := rfl

@[simp] lemma RolloutSequenceDataset.init_seq_num {α : Type} (raw : RawRollout α) (L : Nat) (tr : Bool) :
    (RolloutSequenceDataset.init raw L tr).seq_num = (raw.obs.d0 : Int) - (L : Int) + 1 := by
  show ((splitKeep tr (splitIdx raw.obs.d1) raw.obs.transpose01).d1 : Int) - (L : Int) + 1
      = (raw.obs.d0 : Int) - (L : Int) + 1
  simp

/-- Integer indexing at a nonnegative in-range position returns the
row, unwrapped. -/
lemma Tensor2.row_eq_rowList {α : Type} (x : Tensor2 α) (k : Nat) (hk : k < x.d0) :
    x.row (k : Int) = some (x.rowList k) := by
  unfold Tensor2.row Tensor2.rowList Tensor2.effIdx
  rw [if_pos ⟨by omega, by exact_mod_cast hk⟩, if_neg (by omega)]
  simp

lemma Tensor2.effIdx_of_nonneg {d0 : Nat} {idx : Int} (h : 0 ≤ idx) :
    Tensor2.effIdx d0 idx = idx.toNat := by
  unfold Tensor2.effIdx
  rw [if_neg (by omega)]

lemma Tensor2.sliceBound_of_nonneg {n : Nat} {a : Int} (h0 : 0 ≤ a) (h1 : a ≤ (n : Int)) :
    Tensor2.sliceBound n a = a.toNat := by
  unfold Tensor2.sliceBound
  rw [if_neg (by omega)]
  omega

/-- A fully in-range slice request `x[idx, a : a + L]` returns the
window of length `L` at `(idx, a)`. -/
lemma Tensor2.sliceRow_window {α : Type} (x : Tensor2 α) (idx a : Int) (L : Nat)
    (h0 : 0 ≤ idx) (h1 : idx < (x.d0 : Int))
    (h2 : 0 ≤ a) (h3 : a + (L : Int) ≤ (x.d1 : Int)) :
    x.sliceRow idx a (a + (L : Int)) = some (x.window idx.toNat a.toNat L) := by
  unfold Tensor2.sliceRow
  rw [if_pos ⟨by omega, h1⟩, Tensor2.effIdx_of_nonneg h0,
    Tensor2.sliceBound_of_nonneg h2 (by omega),
    Tensor2.sliceBound_of_nonneg (by omega : (0 : Int) ≤ a + (L : Int)) h3]
  have hlen : (a + (L : Int)).toNat - a.toNat = L := by omega
  rw [hlen]
  rfl

/-- A slice request with a valid integer row index succeeds. -/
lemma Tensor2.sliceRow_isSome {α : Type} (x : Tensor2 α) (idx a b : Int)
    (h : -(x.d0 : Int) ≤ idx ∧ idx < (x.d0 : Int)) :
    x.sliceRow idx a b =
      some ((List.range (Tensor2.sliceBound x.d1 b - Tensor2.sliceBound x.d1 a)).map
        (fun t => x.entry (Tensor2.effIdx x.d0 idx) (Tensor2.sliceBound x.d1 a + t))) := by
  unfold Tensor2.sliceRow
  rw [if_pos h]

/-- A slice request fails exactly when the integer row index is outside
`[-d0, d0)`. -/
lemma Tensor2.sliceRow_none_iff {α : Type} (x : Tensor2 α) (idx a b : Int) :
    x.sliceRow idx a b = none ↔ (idx < -(x.d0 : Int) ∨ (x.d0 : Int) ≤ idx) := by
  unfold Tensor2.sliceRow
  by_cases h : -(x.d0 : Int) ≤ idx ∧ idx < (x.d0 : Int)
  · rw [if_pos h]
    constructor
    · intro hc; cases hc
    · intro hc
      obtain ⟨h1, h2⟩ := h
      exact ((by omega : False)).elim
  · rw [if_neg h]
    constructor
    · intro _
      by_contra hc
      exact h (by omega)
    · intro _; rfl

/-- Row access fails exactly when the integer index is outside
`[-d0, d0)`. -/
lemma Tensor2.row_none_iff {α : Type} (x : Tensor2 α) (idx : Int) :
    x.row idx = none ↔ (idx < -(x.d0 : Int) ∨ (x.d0 : Int) ≤ idx) := by
  unfold Tensor2.row
  by_cases h : -(x.d0 : Int) ≤ idx ∧ idx < (x.d0 : Int)
  · rw [if_pos h]
    constructor
    · intro hc; cases hc
    · intro hc
      obtain ⟨h1, h2⟩ := h
      exact ((by omega : False)).elim
  · rw [if_neg h]
    constructor
    · intro _
      by_contra hc
      exact h (by omega)
    · intro _; rfl

/-- Two valid integer row indices with the same effective position give
the same slice. -/
lemma Tensor2.sliceRow_congr {α : Type} (x : Tensor2 α) {idx idx' : Int} (a b : Int)
    (h : -(x.d0 : Int) ≤ idx ∧ idx < (x.d0 : Int))
    (h' : -(x.d0 : Int) ≤ idx' ∧ idx' < (x.d0 : Int))
    (he : Tensor2.effIdx x.d0 idx = Tensor2.effIdx x.d0 idx') :
    x.sliceRow idx a b = x.sliceRow idx' a b := by
  unfold Tensor2.sliceRow
  rw [if_pos h, if_pos h', he]

/-- Two valid integer row indices with the same effective position give
the same row. -/
lemma Tensor2.row_congr {α : Type} (x : Tensor2 α) {idx idx' : Int}
    (h : -(x.d0 : Int) ≤ idx ∧ idx < (x.d0 : Int))
    (h' : -(x.d0 : Int) ≤ idx' ∧ idx' < (x.d0 : Int))
    (he : Tensor2.effIdx x.d0 idx = Tensor2.effIdx x.d0 idx') :
    x.row idx = x.row idx' := by
  unfold Tensor2.row
  rw [if_pos h, if_pos h', he]

/-- `__getitem__` with a nonzero `seq_num`, unfolded. -/
lemma RolloutSequenceDataset.getitem_eq {α : Type} (d : RolloutSequenceDataset α)
    (i : Int) (hW : d.seq_num ≠ 0) :
    d.getitem i =
      (d.obs.sliceRow (flatDecompose d.seq_num i).1 (flatDecompose d.seq_num i).2
          ((flatDecompose d.seq_num i).2 + (d.seq_len : Int))).bind (fun o =>
        (d.action.sliceRow (flatDecompose d.seq_num i).1 (flatDecompose d.seq_num i).2
            ((flatDecompose d.seq_num i).2 + (d.seq_len : Int))).bind (fun a =>
          (d.reward.sliceRow (flatDecompose d.seq_num i).1 (flatDecompose d.seq_num i).2
              ((flatDecompose d.seq_num i).2 + (d.seq_len : Int))).bind (fun r =>
            (d.done.sliceRow (flatDecompose d.seq_num i).1 (flatDecompose d.seq_num i).2
                ((flatDecompose d.seq_num i).2 + (d.seq_len : Int))).bind (fun dn =>
              (d.next_obs.sliceRow (flatDecompose d.seq_num i).1 (flatDecompose d.seq_num i).2
                  ((flatDecompose d.seq_num i).2 + (d.seq_len : Int))).map (fun no =>
                (o, a, r, dn, no)))))) := by
  unfold RolloutSequenceDataset.getitem
  rw [if_neg hW]

lemma splitIdx_le (n : Nat) : splitIdx n ≤ n := by
  unfold splitIdx; omega

lemma isEpisodeBlock_take {α : Type} (x : Tensor2 α) (k : Nat) (hk : k ≤ x.d1) :
    isEpisodeBlock (splitKeep true k x.transpose01) x 0 k := by
  refine ⟨?_, ?_, ?_⟩
  · simp; omega
  · simp
  · intro e t; simp [splitKeep_entry]

lemma isEpisodeBlock_drop {α : Type} (x : Tensor2 α) (k : Nat) :
    isEpisodeBlock (splitKeep false k x.transpose01) x k (x.d1 - k) := by
  refine ⟨by simp, by simp, fun e t => by simp [splitKeep_entry]⟩

/-- C1: for the Mode A provider built with `1 ≤ seq_len ≤ num_timesteps`,
`__len__` equals `(num_timesteps - seq_len + 1) * num_episodes_in_split`,
where `num_episodes_in_split` is the episode count kept by the train/test
restriction (`⌊0.8 E⌋` episodes for train, the remaining ones for
test). -/
theorem C1_modeA_size {α : Type} (raw : RawRollout α) (T E L : Nat) (tr : Bool)
    (hd0 : raw.obs.d0 = T) (hd1 : raw.obs.d1 = E) (hL1 : 1 ≤ L) (hLT : L ≤ T) :
    (RolloutSequenceDataset.init raw L tr).obs.d0
        = (if tr then splitIdx E else E - splitIdx E) ∧
    (RolloutSequenceDataset.init raw L tr).len
        = ((T - L + 1 : Nat) : Int)
            * (((RolloutSequenceDataset.init raw L tr).obs.d0 : Nat) : Int) := by
  have hobs : (RolloutSequenceDataset.init raw L tr).obs.d0
      = if tr then splitIdx E else E - splitIdx E := by
    rw [RolloutSequenceDataset.init_obs, hd1]
    have := splitIdx_le E
    cases tr <;> simp <;> omega
  refine ⟨hobs, ?_⟩
  show (RolloutSequenceDataset.init raw L tr).seq_num
        * (((RolloutSequenceDataset.init raw L tr).obs.d0 : Nat) : Int)
      = _
  rw [RolloutSequenceDataset.init_seq_num, hd0]
  have hcast : ((T : Int) - (L : Int) + 1) = ((T - L + 1 : Nat) : Int) := by omega
  rw [hcast]

/-- C1 witness: the theorem applied to the concrete fixture `sampleRaw`
(3 timesteps, 5 episodes) with `seq_len = 2`, train split. -/
theorem C1_modeA_size_witness :
    (RolloutSequenceDataset.init sampleRaw 2 true).obs.d0
        = (if true then splitIdx 5 else 5 - splitIdx 5) ∧
    (RolloutSequenceDataset.init sampleRaw 2 true).len
        = ((3 - 2 + 1 : Nat) : Int)
            * (((RolloutSequenceDataset.init sampleRaw 2 true).obs.d0 : Nat) : Int) :=
  C1_modeA_size sampleRaw 3 5 2 true rfl rfl (by decide) (by decide)

/-- C4: the Mode A split partitions the episode axis at
`split = ⌊0.8 * E⌋`, computed from the original buffer's episode count:
the train provider keeps exactly episodes `[0, split)` and the test
provider exactly episodes `[split, E)`, with the same split index applied
to every one of the five fields, the two ranges disjoint
(`split ≤ E` prefix vs. suffix) and covering all episodes
(`split + (E - split) = E`). -/
theorem C4_modeA_split {α : Type} (raw : RawRollout α) (E L : Nat)
    (h1 : raw.obs.d1 = E) (h2 : raw.action.d1 = E) (h3 : raw.reward.d1 = E)
    (h4 : raw.done.d1 = E) (h5 : raw.next_obs.d1 = E) :
    splitIdx E ≤ E ∧
    splitIdx E + (E - splitIdx E) = E ∧
    isEpisodeBlock (RolloutSequenceDataset.init raw L true).obs raw.obs 0 (splitIdx E) ∧
    isEpisodeBlock (RolloutSequenceDataset.init raw L true).action raw.action 0 (splitIdx E) ∧
    isEpisodeBlock (RolloutSequenceDataset.init raw L true).reward raw.reward 0 (splitIdx E) ∧
    isEpisodeBlock (RolloutSequenceDataset.init raw L true).done raw.done 0 (splitIdx E) ∧
    isEpisodeBlock (RolloutSequenceDataset.init raw L true).next_obs raw.next_obs 0 (splitIdx E) ∧
    isEpisodeBlock (RolloutSequenceDataset.init raw L false).obs raw.obs (splitIdx E) (E - splitIdx E) ∧
    isEpisodeBlock (RolloutSequenceDataset.init raw L false).action raw.action (splitIdx E) (E - splitIdx E) ∧
    isEpisodeBlock (RolloutSequenceDataset.init raw L false).reward raw.reward (splitIdx E) (E - splitIdx E) ∧
    isEpisodeBlock (RolloutSequenceDataset.init raw L false).done raw.done (splitIdx E) (E - splitIdx E) ∧
    isEpisodeBlock (RolloutSequenceDataset.init raw L false).next_obs raw.next_obs (splitIdx E) (E - splitIdx E) := by
  have hsle : splitIdx E ≤ E := splitIdx_le E
  refine ⟨hsle, by omega, ?_, ?_, ?_, ?_, ?_, ?_, ?_, ?_, ?_, ?_⟩
  · rw [RolloutSequenceDataset.init_obs, h1]
    exact isEpisodeBlock_take raw.obs (splitIdx E) (h1 ▸ hsle)
  · rw [RolloutSequenceDataset.init_action, h1]
    exact isEpisodeBlock_take raw.action (splitIdx E) (h2 ▸ hsle)
  · rw [RolloutSequenceDataset.init_reward, h1]
    exact isEpisodeBlock_take raw.reward (splitIdx E) (h3 ▸ hsle)
  · rw [RolloutSequenceDataset.init_done, h1]
    exact isEpisodeBlock_take raw.done (splitIdx E) (h4 ▸ hsle)
  · rw [RolloutSequenceDataset.init_next_obs, h1]
    exact isEpisodeBlock_take raw.next_obs (splitIdx E) (h5 ▸ hsle)
  · rw [RolloutSequenceDataset.init_obs, h1]
    exact h1 ▸ isEpisodeBlock_drop raw.obs (splitIdx E)
  · rw [RolloutSequenceDataset.init_action, h1]
    exact h2 ▸ isEpisodeBlock_drop raw.action (splitIdx E)
  · rw [RolloutSequenceDataset.init_reward, h1]
    exact h3 ▸ isEpisodeBlock_drop raw.reward (splitIdx E)
  · rw [RolloutSequenceDataset.init_done, h1]
    exact h4 ▸ isEpisodeBlock_drop raw.done (splitIdx E)
  · rw [RolloutSequenceDataset.init_next_obs, h1]
    exact h5 ▸ isEpisodeBlock_drop raw.next_obs (splitIdx E)

/-- C4 witness: the theorem applied to the concrete fixture `sampleRaw`
(5 episodes, split index 4). -/
theorem C4_modeA_split_witness :
    splitIdx 5 ≤ 5 ∧
    splitIdx 5 + (5 - splitIdx 5) = 5 ∧
    isEpisodeBlock (RolloutSequenceDataset.init sampleRaw 2 true).obs sampleRaw.obs 0 (splitIdx 5) ∧
    isEpisodeBlock (RolloutSequenceDataset.init sampleRaw 2 true).action sampleRaw.action 0 (splitIdx 5) ∧
    isEpisodeBlock (RolloutSequenceDataset.init sampleRaw 2 true).reward sampleRaw.reward 0 (splitIdx 5) ∧
    isEpisodeBlock (RolloutSequenceDataset.init sampleRaw 2 true).done sampleRaw.done 0 (splitIdx 5) ∧
    isEpisodeBlock (RolloutSequenceDataset.init sampleRaw 2 true).next_obs sampleRaw.next_obs 0 (splitIdx 5) ∧
    isEpisodeBlock (RolloutSequenceDataset.init sampleRaw 2 false).obs sampleRaw.obs (splitIdx 5) (5 - splitIdx 5) ∧
    isEpisodeBlock (RolloutSequenceDataset.init sampleRaw 2 false).action sampleRaw.action (splitIdx 5) (5 - splitIdx 5) ∧
    isEpisodeBlock (RolloutSequenceDataset.init sampleRaw 2 false).reward sampleRaw.reward (splitIdx 5) (5 - splitIdx 5) ∧
    isEpisodeBlock (RolloutSequenceDataset.init sampleRaw 2 false).done sampleRaw.done (splitIdx 5) (5 - splitIdx 5) ∧
    isEpisodeBlock (RolloutSequenceDataset.init sampleRaw 2 false).next_obs sampleRaw.next_obs (splitIdx 5) (5 - splitIdx 5) :=
  C4_modeA_split sampleRaw 5 2 rfl rfl rfl rfl rfl

/-- C6: Mode B construction succeeds exactly when the observation
field's element count is divisible by 60; element count 600 reshapes to
`(10, 60)`, while element count 601 makes construction fail. -/
theorem C6_modeB_reshape :
    (∀ (flat : List Nat) (tr : Bool),
        (∃ d, RolloutObservationDataset.init flat tr = some d)
          ↔ flat.length % 60 = 0) ∧
    (view60 (List.range 600) : Tensor2 Nat).d0 = 10 ∧
    (view60 (List.range 600) : Tensor2 Nat).d1 = 60 ∧
    (RolloutObservationDataset.init (List.range 600) true).isSome = true ∧
    RolloutObservationDataset.init (List.range 601) true
      = (none : Option (RolloutObservationDataset Nat)) := by
  refine ⟨?_, ?_, rfl, ?_, ?_⟩
  · intro flat tr
    constructor
    · rintro ⟨d, hd⟩
      by_contra h
      simp [RolloutObservationDataset.init, h] at hd
    · intro h
      refine ⟨⟨splitKeep tr (splitIdx (view60 flat).d0) (view60 flat), tr⟩, ?_⟩
      simp [RolloutObservationDataset.init, h]
  · simp [view60]
  · norm_num [RolloutObservationDataset.init, Option.isSome]
  · norm_num [RolloutObservationDataset.init]

/-- C7: for a buffer with 10 episodes and 20 timesteps and
`seq_len = 5`, the Mode A train provider has `Size() = 128`
(8 episodes × 16 windows) and the test provider `Size() = 32`
(2 episodes × 16 windows). -/
theorem C7_concrete_sizes (f g h p q : Nat → Nat → Nat) :
    (RolloutSequenceDataset.init
        ⟨⟨20, 10, f⟩, ⟨20, 10, g⟩, ⟨20, 10, h⟩, ⟨20, 10, p⟩, ⟨20, 10, q⟩⟩
        5 true).len = 128 ∧
    (RolloutSequenceDataset.init
        ⟨⟨20, 10, f⟩, ⟨20, 10, g⟩, ⟨20, 10, h⟩, ⟨20, 10, p⟩, ⟨20, 10, q⟩⟩
        5 false).len = 32 := by
  constructor <;>
    norm_num [RolloutSequenceDataset.len, RolloutSequenceDataset.init_seq_num,
      RolloutSequenceDataset.init_obs, splitIdx]

/-- C5: for a Mode B buffer whose obs field flattens to 100 rows of
width 60, the train provider has `Size() = 80` holding rows 0–79 of the
flattened matrix, the test provider has `Size() = 20` holding rows
80–99, and `Get(0)` on the test provider returns row 80 of the original
unsplit flattened matrix. -/
theorem C5_modeB_split {α : Type} [Inhabited α] (flat : List α)
    (hlen : flat.length = 6000) :
    ∃ dtr dte : RolloutObservationDataset α,
      RolloutObservationDataset.init flat true = some dtr ∧
      RolloutObservationDataset.init flat false = some dte ∧
      dtr.len = 80 ∧ dte.len = 20 ∧
      (∀ k : Nat, k < 80 → dtr.getitem (k : Int) = some ((view60 flat).rowList k)) ∧
      (∀ k : Nat, k < 20 → dte.getitem (k : Int) = some ((view60 flat).rowList (80 + k))) ∧
      dte.getitem 0 = some ((view60 flat).rowList 80) := by
  have hmod : flat.length % 60 = 0 := by rw [hlen]
  have hd0 : (view60 flat).d0 = 100 := by simp [view60, hlen]
  have hsi : splitIdx (view60 flat).d0 = 80 := by rw [hd0]; rfl
  have htr : (splitKeep true 80 (view60 flat)).d0 = 80 := by simp [hd0]
  have hte : (splitKeep false 80 (view60 flat)).d0 = 20 := by simp [hd0]
  refine ⟨⟨splitKeep true 80 (view60 flat), true⟩,
          ⟨splitKeep false 80 (view60 flat), false⟩, ?_, ?_, htr, hte, ?_, ?_, ?_⟩
  · simp [RolloutObservationDataset.init, hmod, hsi]
  · simp [RolloutObservationDataset.init, hmod, hsi]
  · intro k hk
    show (splitKeep true 80 (view60 flat)).row (k : Int) = _
    rw [Tensor2.row_eq_rowList _ k (by omega)]
    rfl
  · intro k hk
    show (splitKeep false 80 (view60 flat)).row (k : Int) = _
    rw [Tensor2.row_eq_rowList _ k (by omega)]
    rfl
  · show (splitKeep false 80 (view60 flat)).row ((0 : Nat) : Int) = _
    rw [Tensor2.row_eq_rowList _ 0 (by omega)]
    rfl

/-- C5 witness: the theorem applied to the 6000-element fixture
`bigFlat`. -/
theorem C5_modeB_split_witness :
    ∃ dtr dte : RolloutObservationDataset Nat,
      RolloutObservationDataset.init bigFlat true = some dtr ∧
      RolloutObservationDataset.init bigFlat false = some dte ∧
      dtr.len = 80 ∧ dte.len = 20 ∧
      (∀ k : Nat, k < 80 → dtr.getitem (k : Int) = some ((view60 bigFlat).rowList k)) ∧
      (∀ k : Nat, k < 20 → dte.getitem (k : Int) = some ((view60 bigFlat).rowList (80 + k))) ∧
      dte.getitem 0 = some ((view60 bigFlat).rowList 80) :=
  C5_modeB_split bigFlat (by simp [bigFlat])

/-- C3: with `W = num_windows_per_episode ≥ 1`, the Mode A flat-index
decomposition `i ↦ (i // W, i % W)` is a bijection between `[0, E * W)`
and the pair set `[0, E) × [0, W)`: it maps the range into the pair set,
distinct flat indices give distinct pairs, and every pair is the image
of exactly one flat index. -/
theorem C3_decompose_bijection (E W : Int) (hW : 1 ≤ W) :
    (∀ i : Int, 0 ≤ i → i < E * W →
        0 ≤ (flatDecompose W i).1 ∧ (flatDecompose W i).1 < E ∧
        0 ≤ (flatDecompose W i).2 ∧ (flatDecompose W i).2 < W) ∧
    (∀ i j : Int, 0 ≤ i → i < E * W → 0 ≤ j → j < E * W →
        flatDecompose W i = flatDecompose W j → i = j) ∧
    (∀ e s : Int, 0 ≤ e → e < E → 0 ≤ s → s < W →
        ∃! i : Int, (0 ≤ i ∧ i < E * W) ∧ flatDecompose W i = (e, s)) := by
  have hW0 : (0 : Int) < W := by omega
  have hWne : W ≠ 0 := by omega
  have hfd : ∀ i : Int, Int.fdiv i W = i / W := fun i => Int.fdiv_eq_ediv i (by omega)
  have hfm : ∀ i : Int, Int.fmod i W = i % W := fun i => Int.fmod_eq_emod i (by omega)
  refine ⟨?_, ?_, ?_⟩
  · intro i hi0 hiu
    simp only [flatDecompose, hfd, hfm]
    exact ⟨Int.ediv_nonneg hi0 hW0.le, (Int.ediv_lt_iff_lt_mul hW0).mpr hiu,
      Int.emod_nonneg i hWne, Int.emod_lt_of_pos i hW0⟩
  · intro i j hi0 hiu hj0 hju hEq
    simp only [flatDecompose, hfd, hfm, Prod.mk.injEq] at hEq
    calc i = W * (i / W) + i % W := (Int.ediv_add_emod i W).symm
    _ = W * (j / W) + j % W := by rw [hEq.1, hEq.2]
    _ = j := Int.ediv_add_emod j W
  · intro e s he0 heE hs0 hsW
    have hdiv : (e * W + s) / W = e := by
      rw [add_comm, Int.add_mul_ediv_right s e hWne,
        Int.ediv_eq_zero_of_lt hs0 hsW, zero_add]
    have hmod : (e * W + s) % W = s := by
      rw [add_comm, Int.add_mul_emod_self, Int.emod_eq_of_lt hs0 hsW]
    have hup : e * W + s < E * W := by
      have h1 : (e + 1) * W ≤ E * W := mul_le_mul_of_nonneg_right (by omega) hW0.le
      have h2 : (e + 1) * W = e * W + W := by ring
      linarith
    have hlo : 0 ≤ e * W + s := by
      have := mul_nonneg he0 hW0.le
      linarith
    refine ⟨e * W + s, ⟨⟨hlo, hup⟩, ?_⟩, ?_⟩
    · simp only [flatDecompose, hfd, hfm, hdiv, hmod]
    · intro j hj
      have h1 : j / W = e := by
        have := congrArg Prod.fst hj.2
        simpa [flatDecompose, hfd] using this
      have h2 : j % W = s := by
        have := congrArg Prod.snd hj.2
        simpa [flatDecompose, hfm] using this
      calc j = W * (j / W) + j % W := (Int.ediv_add_emod j W).symm
      _ = W * e + s := by rw [h1, h2]
      _ = e * W + s := by ring

/-- C3 witness: the theorem applied at `E = 5`, `W = 16`. -/
theorem C3_decompose_bijection_witness :
    (∀ i : Int, 0 ≤ i → i < 5 * 16 →
        0 ≤ (flatDecompose 16 i).1 ∧ (flatDecompose 16 i).1 < 5 ∧
        0 ≤ (flatDecompose 16 i).2 ∧ (flatDecompose 16 i).2 < 16) ∧
    (∀ i j : Int, 0 ≤ i → i < 5 * 16 → 0 ≤ j → j < 5 * 16 →
        flatDecompose 16 i = flatDecompose 16 j → i = j) ∧
    (∀ e s : Int, 0 ≤ e → e < 5 → 0 ≤ s → s < 16 →
        ∃! i : Int, (0 ≤ i ∧ i < 5 * 16) ∧ flatDecompose 16 i = (e, s)) :=
  C3_decompose_bijection 5 16 (by decide)

/-- C2: for the Mode A provider built with `1 ≤ seq_len ≤ num_timesteps`
over a rectangular buffer, for every `i` in `[0, Size())`, `Get(i)`
returns the 5-tuple of slices `[start : start + seq_len]` along the
timestep axis of the fields `obs`, `action`, `reward`, `done`,
`next_obs` in that order, at episode `i // num_windows_per_episode` and
start `i % num_windows_per_episode`, each slice of leading dimension
`seq_len`. -/
theorem C2_modeA_get {α : Type} (raw : RawRollout α) (T E L : Nat) (tr : Bool)
    (hr : raw.rect T E) (hL1 : 1 ≤ L) (hLT : L ≤ T)
    (d : RolloutSequenceDataset α) (hd : d = RolloutSequenceDataset.init raw L tr)
    (i : Int) (hi0 : 0 ≤ i) (hi : i < d.len) :
    ∃ e s : Nat,
      (e : Int) = (flatDecompose d.seq_num i).1 ∧
      (s : Int) = (flatDecompose d.seq_num i).2 ∧
      d.getitem i = some (d.obs.window e s L, d.action.window e s L,
        d.reward.window e s L, d.done.window e s L, d.next_obs.window e s L) ∧
      (d.obs.window e s L).length = L ∧ (d.action.window e s L).length = L ∧
      (d.reward.window e s L).length = L ∧ (d.done.window e s L).length = L ∧
      (d.next_obs.window e s L).length = L := by
  obtain ⟨r1, r2, r3, r4, r5, r6, r7, r8, r9, r10⟩ := hr
  have hW : d.seq_num = (T : Int) - (L : Int) + 1 := by
    rw [hd, RolloutSequenceDataset.init_seq_num, r1]
  have hW1 : 1 ≤ d.seq_num := by omega
  have hWne : d.seq_num ≠ 0 := by omega
  have hsl : d.seq_len = L := by rw [hd]; rfl
  have hP1 : (flatDecompose d.seq_num i).1 = i / d.seq_num := Int.fdiv_eq_ediv i (by omega)
  have hP2 : (flatDecompose d.seq_num i).2 = i % d.seq_num := Int.fmod_eq_emod i (by omega)
  have hod1 : d.obs.d1 = T := by rw [hd]; simp [r1]
  have had1 : d.action.d1 = T := by rw [hd]; simp [r3]
  have hrd1 : d.reward.d1 = T := by rw [hd]; simp [r5]
  have hdd1 : d.done.d1 = T := by rw [hd]; simp [r7]
  have hnd1 : d.next_obs.d1 = T := by rw [hd]; simp [r9]
  have had0 : d.action.d0 = d.obs.d0 := by rw [hd]; simp [r2, r4]
  have hrd0 : d.reward.d0 = d.obs.d0 := by rw [hd]; simp [r2, r6]
  have hdd0 : d.done.d0 = d.obs.d0 := by rw [hd]; simp [r2, r8]
  have hnd0 : d.next_obs.d0 = d.obs.d0 := by rw [hd]; simp [r2, r10]
  have hlen : d.len = d.seq_num * (d.obs.d0 : Int) := rfl
  have hq0 : 0 ≤ i / d.seq_num := Int.ediv_nonneg hi0 (by omega)
  have hq1 : i / d.seq_num < (d.obs.d0 : Int) := by
    refine (Int.ediv_lt_iff_lt_mul (by omega)).mpr ?_
    rw [mul_comm]
    omega
  have hm0 : 0 ≤ i % d.seq_num := Int.emod_nonneg i hWne
  have hm1 : i % d.seq_num < d.seq_num := Int.emod_lt_of_pos i (by omega)
  have hslice : i % d.seq_num + (L : Int) ≤ (T : Int) := by omega
  refine ⟨(i / d.seq_num).toNat, (i % d.seq_num).toNat, ?_, ?_, ?_, by simp, by simp,
    by simp, by simp, by simp⟩
  · rw [hP1, Int.toNat_of_nonneg hq0]
  · rw [hP2, Int.toNat_of_nonneg hm0]
  · rw [RolloutSequenceDataset.getitem_eq d i hWne, hP1, hP2, hsl,
      Tensor2.sliceRow_window d.obs _ _ L hq0 hq1 hm0 (by omega),
      Tensor2.sliceRow_window d.action _ _ L hq0 (by omega) hm0 (by omega),
      Tensor2.sliceRow_window d.reward _ _ L hq0 (by omega) hm0 (by omega),
      Tensor2.sliceRow_window d.done _ _ L hq0 (by omega) hm0 (by omega),
      Tensor2.sliceRow_window d.next_obs _ _ L hq0 (by omega) hm0 (by omega)]
    rfl

/-- C2 witness: the theorem applied to the fixture `sampleRaw`
(3 timesteps, 5 episodes), `seq_len = 2`, train split, at `i = 3`. -/
theorem C2_modeA_get_witness :
    ∃ e s : Nat,
      (e : Int) = (flatDecompose (RolloutSequenceDataset.init sampleRaw 2 true).seq_num 3).1 ∧
      (s : Int) = (flatDecompose (RolloutSequenceDataset.init sampleRaw 2 true).seq_num 3).2 ∧
      (RolloutSequenceDataset.init sampleRaw 2 true).getitem 3 = some
        ((RolloutSequenceDataset.init sampleRaw 2 true).obs.window e s 2,
         (RolloutSequenceDataset.init sampleRaw 2 true).action.window e s 2,
         (RolloutSequenceDataset.init sampleRaw 2 true).reward.window e s 2,
         (RolloutSequenceDataset.init sampleRaw 2 true).done.window e s 2,
         (RolloutSequenceDataset.init sampleRaw 2 true).next_obs.window e s 2) ∧
      ((RolloutSequenceDataset.init sampleRaw 2 true).obs.window e s 2).length = 2 ∧
      ((RolloutSequenceDataset.init sampleRaw 2 true).action.window e s 2).length = 2 ∧
      ((RolloutSequenceDataset.init sampleRaw 2 true).reward.window e s 2).length = 2 ∧
      ((RolloutSequenceDataset.init sampleRaw 2 true).done.window e s 2).length = 2 ∧
      ((RolloutSequenceDataset.init sampleRaw 2 true).next_obs.window e s 2).length = 2 :=
  C2_modeA_get sampleRaw 3 5 2 true
    (by refine ⟨rfl, rfl, rfl, rfl, rfl, rfl, rfl, rfl, rfl, rfl⟩)
    (by decide) (by decide) _ rfl 3 (by decide) (by decide)

/-- C8 counterexample: on a concrete Mode A dataset, `__getitem__(-1)`
succeeds — the negative episode index wraps around — although `-1` lies
outside `[0, Size())`, refuting the claim that `Get` fails for every
integer outside that range. -/
theorem C8_counterexample :
    ((RolloutSequenceDataset.init sampleRaw 2 true).getitem (-1)).isSome = true ∧
    ¬ (0 ≤ (-1 : Int) ∧
        (-1 : Int) < (RolloutSequenceDataset.init sampleRaw 2 true).len) := by
  constructor
  · decide
  · decide

/-- C8 (amended): `Get(i)` fails exactly for `i ≥ Size()` and
`i < -Size()`, in both modes; indices in `[-Size(), 0)` do not fail —
they wrap around to the end of the index space. -/
theorem C8_amended_get_failure {α : Type} [Inhabited α] (raw : RawRollout α)
    (T E L : Nat) (tr : Bool) (hr : raw.rect T E) (hL1 : 1 ≤ L) (hLT : L ≤ T)
    (d : RolloutSequenceDataset α) (hd : d = RolloutSequenceDataset.init raw L tr)
    (flat : List α) (b : RolloutObservationDataset α)
    (hb : RolloutObservationDataset.init flat tr = some b) :
    (∀ i : Int, d.getitem i = none ↔ (i < -d.len ∨ d.len ≤ i)) ∧
    (∀ i : Int, b.getitem i = none ↔ (i < -(b.len : Int) ∨ (b.len : Int) ≤ i)) := by
  obtain ⟨r1, r2, r3, r4, r5, r6, r7, r8, r9, r10⟩ := hr
  have hW : d.seq_num = (T : Int) - (L : Int) + 1 := by
    rw [hd, RolloutSequenceDataset.init_seq_num, r1]
  have hWne : d.seq_num ≠ 0 := by omega
  have hW0 : (0 : Int) < d.seq_num := by omega
  have had0 : d.action.d0 = d.obs.d0 := by rw [hd]; simp [r2, r4]
  have hrd0 : d.reward.d0 = d.obs.d0 := by rw [hd]; simp [r2, r6]
  have hdd0 : d.done.d0 = d.obs.d0 := by rw [hd]; simp [r2, r8]
  have hnd0 : d.next_obs.d0 = d.obs.d0 := by rw [hd]; simp [r2, r10]
  have hlen : d.len = d.seq_num * (d.obs.d0 : Int) := rfl
  constructor
  · intro i
    have hP1 : (flatDecompose d.seq_num i).1 = i / d.seq_num :=
      Int.fdiv_eq_ediv i (by omega)
    have key1 : i / d.seq_num < -((d.obs.d0 : Int)) ↔ i < -d.len := by
      rw [hlen, Int.ediv_lt_iff_lt_mul hW0,
        (by ring : (-((d.obs.d0 : Int))) * d.seq_num = -(d.seq_num * (d.obs.d0 : Int)))]
    have key2 : (d.obs.d0 : Int) ≤ i / d.seq_num ↔ d.len ≤ i := by
      rw [hlen, Int.le_ediv_iff_mul_le hW0,
        (by ring : ((d.obs.d0 : Int)) * d.seq_num = d.seq_num * (d.obs.d0 : Int))]
    rw [RolloutSequenceDataset.getitem_eq d i hWne, hP1]
    by_cases hC : -((d.obs.d0 : Int)) ≤ i / d.seq_num ∧ i / d.seq_num < (d.obs.d0 : Int)
    · rw [Tensor2.sliceRow_isSome d.obs _ _ _ hC,
        Tensor2.sliceRow_isSome d.action _ _ _ (by rw [had0]; exact hC),
        Tensor2.sliceRow_isSome d.reward _ _ _ (by rw [hrd0]; exact hC),
        Tensor2.sliceRow_isSome d.done _ _ _ (by rw [hdd0]; exact hC),
        Tensor2.sliceRow_isSome d.next_obs _ _ _ (by rw [hnd0]; exact hC)]
      simp only [Option.some_bind, Option.map_some']
      constructor
      · intro h; simp at h
      · rintro (h | h)
        · exfalso; have h1 := key1.mpr h; linarith [hC.1]
        · exfalso; have h2 := key2.mpr h; linarith [hC.2]
    · have hdis : i / d.seq_num < -((d.obs.d0 : Int)) ∨ (d.obs.d0 : Int) ≤ i / d.seq_num := by
        rcases lt_or_le (i / d.seq_num) (-((d.obs.d0 : Int))) with h | h
        · exact Or.inl h
        · rcases lt_or_le (i / d.seq_num) ((d.obs.d0 : Int)) with h2 | h2
          · exact absurd ⟨h, h2⟩ hC
          · exact Or.inr h2
      rw [(Tensor2.sliceRow_none_iff d.obs _ _ _).mpr hdis]
      simp only [Option.none_bind]
      constructor
      · intro _
        rcases hdis with h | h
        · exact Or.inl (key1.mp h)
        · exact Or.inr (key2.mp h)
      · intro _; trivial
  · intro i
    show b.buffer.row i = none ↔ _
    rw [Tensor2.row_none_iff]
    exact Iff.rfl

/-- C8 (amended) witness: the amended theorem applied to the fixtures
`sampleRaw` (Mode A, `seq_len = 2`, train) and `sampleFlat` /
`sampleObsB` (Mode B, train). -/
theorem C8_amended_get_failure_witness :
    (∀ i : Int, (RolloutSequenceDataset.init sampleRaw 2 true).getitem i = none ↔
        (i < -(RolloutSequenceDataset.init sampleRaw 2 true).len ∨
         (RolloutSequenceDataset.init sampleRaw 2 true).len ≤ i)) ∧
    (∀ i : Int, sampleObsB.getitem i = none ↔
        (i < -(sampleObsB.len : Int) ∨ (sampleObsB.len : Int) ≤ i)) :=
  C8_amended_get_failure sampleRaw 3 5 2 true
    ⟨rfl, rfl, rfl, rfl, rfl, rfl, rfl, rfl, rfl, rfl⟩
    (by decide) (by decide) _ rfl sampleFlat sampleObsB rfl

/-- C10: in both modes, for every `k` with `1 ≤ k ≤ Size()`, `Get(-k)`
succeeds and returns the same result as `Get(Size() - k)`: negative
logical indices wrap around to the end of the index space instead of
failing. -/
theorem C10_negative_wrap {α : Type} [Inhabited α] (raw : RawRollout α)
    (T E L : Nat) (tr : Bool) (hr : raw.rect T E) (hL1 : 1 ≤ L) (hLT : L ≤ T)
    (d : RolloutSequenceDataset α) (hd : d = RolloutSequenceDataset.init raw L tr)
    (flat : List α) (b : RolloutObservationDataset α)
    (hb : RolloutObservationDataset.init flat tr = some b) :
    (∀ k : Int, 1 ≤ k → k ≤ d.len →
        (d.getitem (-k)).isSome = true ∧ d.getitem (-k) = d.getitem (d.len - k)) ∧
    (∀ k : Int, 1 ≤ k → k ≤ (b.len : Int) →
        (b.getitem (-k)).isSome = true ∧
        b.getitem (-k) = b.getitem ((b.len : Int) - k)) := by
  obtain ⟨r1, r2, r3, r4, r5, r6, r7, r8, r9, r10⟩ := hr
  have hW : d.seq_num = (T : Int) - (L : Int) + 1 := by
    rw [hd, RolloutSequenceDataset.init_seq_num, r1]
  have hWne : d.seq_num ≠ 0 := by omega
  have hW0 : (0 : Int) < d.seq_num := by omega
  have had0 : d.action.d0 = d.obs.d0 := by rw [hd]; simp [r2, r4]
  have hrd0 : d.reward.d0 = d.obs.d0 := by rw [hd]; simp [r2, r6]
  have hdd0 : d.done.d0 = d.obs.d0 := by rw [hd]; simp [r2, r8]
  have hnd0 : d.next_obs.d0 = d.obs.d0 := by rw [hd]; simp [r2, r10]
  have hlen : d.len = d.seq_num * (d.obs.d0 : Int) := rfl
  constructor
  · intro k hk1 hk2
    have hP1a : (flatDecompose d.seq_num (-k)).1 = (-k) / d.seq_num :=
      Int.fdiv_eq_ediv _ (by omega)
    have hP2a : (flatDecompose d.seq_num (-k)).2 = (-k) % d.seq_num :=
      Int.fmod_eq_emod _ (by omega)
    have e1 : d.len - k = -k + (d.obs.d0 : Int) * d.seq_num := by rw [hlen]; ring
    have hP1b : (flatDecompose d.seq_num (d.len - k)).1
        = (-k) / d.seq_num + (d.obs.d0 : Int) := by
      show Int.fdiv (d.len - k) d.seq_num = _
      rw [Int.fdiv_eq_ediv _ (by omega), e1, Int.add_mul_ediv_right _ _ hWne]
    have hP2b : (flatDecompose d.seq_num (d.len - k)).2 = (-k) % d.seq_num := by
      show Int.fmod (d.len - k) d.seq_num = _
      rw [Int.fmod_eq_emod _ (by omega), e1, Int.add_mul_emod_self]
    have hqlo : -((d.obs.d0 : Int)) ≤ (-k) / d.seq_num := by
      rw [Int.le_ediv_iff_mul_le hW0,
        (by ring : (-((d.obs.d0 : Int))) * d.seq_num = -(d.seq_num * (d.obs.d0 : Int)))]
      linarith [hk2, hlen]
    have hqhi : (-k) / d.seq_num < 0 := by
      rw [Int.ediv_lt_iff_lt_mul hW0,
        (by ring : (0 : Int) * d.seq_num = 0)]
      omega
    have hc1 : -((d.obs.d0 : Int)) ≤ (-k) / d.seq_num ∧
        (-k) / d.seq_num < (d.obs.d0 : Int) :=
      ⟨hqlo, lt_of_lt_of_le hqhi (Int.natCast_nonneg _)⟩
    have hc2 : -((d.obs.d0 : Int)) ≤ (-k) / d.seq_num + (d.obs.d0 : Int) ∧
        (-k) / d.seq_num + (d.obs.d0 : Int) < (d.obs.d0 : Int) := by
      constructor
      · linarith [hqlo, Int.natCast_nonneg d.obs.d0]
      · linarith [hqhi]
    have heff : Tensor2.effIdx d.obs.d0 ((-k) / d.seq_num)
        = Tensor2.effIdx d.obs.d0 ((-k) / d.seq_num + (d.obs.d0 : Int)) := by
      unfold Tensor2.effIdx
      rw [if_pos hqhi, if_neg (by linarith [hqlo])]
      congr 1
      ring
    have hobs := Tensor2.sliceRow_congr d.obs ((-k) % d.seq_num)
      ((-k) % d.seq_num + (d.seq_len : Int)) hc1 hc2 heff
    have hact := Tensor2.sliceRow_congr d.action ((-k) % d.seq_num)
      ((-k) % d.seq_num + (d.seq_len : Int))
      (by rw [had0]; exact hc1) (by rw [had0]; exact hc2) (by rw [had0]; exact heff)
    have hrew := Tensor2.sliceRow_congr d.reward ((-k) % d.seq_num)
      ((-k) % d.seq_num + (d.seq_len : Int))
      (by rw [hrd0]; exact hc1) (by rw [hrd0]; exact hc2) (by rw [hrd0]; exact heff)
    have hdon := Tensor2.sliceRow_congr d.done ((-k) % d.seq_num)
      ((-k) % d.seq_num + (d.seq_len : Int))
      (by rw [hdd0]; exact hc1) (by rw [hdd0]; exact hc2) (by rw [hdd0]; exact heff)
    have hnxt := Tensor2.sliceRow_congr d.next_obs ((-k) % d.seq_num)
      ((-k) % d.seq_num + (d.seq_len : Int))
      (by rw [hnd0]; exact hc1) (by rw [hnd0]; exact hc2) (by rw [hnd0]; exact heff)
    constructor
    · rw [RolloutSequenceDataset.getitem_eq d (-k) hWne, hP1a, hP2a,
        Tensor2.sliceRow_isSome d.obs _ _ _ hc1,
        Tensor2.sliceRow_isSome d.action _ _ _ (by rw [had0]; exact hc1),
        Tensor2.sliceRow_isSome d.reward _ _ _ (by rw [hrd0]; exact hc1),
        Tensor2.sliceRow_isSome d.done _ _ _ (by rw [hdd0]; exact hc1),
        Tensor2.sliceRow_isSome d.next_obs _ _ _ (by rw [hnd0]; exact hc1)]
      rfl
    · rw [RolloutSequenceDataset.getitem_eq d (-k) hWne,
        RolloutSequenceDataset.getitem_eq d (d.len - k) hWne,
        hP1a, hP2a, hP1b, hP2b, hobs, hact, hrew, hdon, hnxt]
  · intro k hk1 hk2
    have hlb : (b.len : Int) = (b.buffer.d0 : Int) := rfl
    have hc1 : -((b.buffer.d0 : Int)) ≤ -k ∧ -k < (b.buffer.d0 : Int) := by
      constructor <;> omega
    have hc2 : -((b.buffer.d0 : Int)) ≤ (b.len : Int) - k ∧
        (b.len : Int) - k < (b.buffer.d0 : Int) := by
      constructor <;> omega
    have heff : Tensor2.effIdx b.buffer.d0 (-k)
        = Tensor2.effIdx b.buffer.d0 ((b.len : Int) - k) := by
      unfold Tensor2.effIdx
      rw [if_pos (by omega), if_neg (by omega)]
      congr 1
    constructor
    · show (b.buffer.row (-k)).isSome = true
      unfold Tensor2.row
      rw [if_pos hc1]
      rfl
    · exact Tensor2.row_congr b.buffer hc1 hc2 heff

/-- C10 witness: the theorem applied to the fixtures `sampleRaw`
(Mode A, `seq_len = 2`, train) and `sampleFlat` / `sampleObsB`
(Mode B, train). -/
theorem C10_negative_wrap_witness :
    (∀ k : Int, 1 ≤ k → k ≤ (RolloutSequenceDataset.init sampleRaw 2 true).len →
        ((RolloutSequenceDataset.init sampleRaw 2 true).getitem (-k)).isSome = true ∧
        (RolloutSequenceDataset.init sampleRaw 2 true).getitem (-k)
          = (RolloutSequenceDataset.init sampleRaw 2 true).getitem
              ((RolloutSequenceDataset.init sampleRaw 2 true).len - k)) ∧
    (∀ k : Int, 1 ≤ k → k ≤ (sampleObsB.len : Int) →
        (sampleObsB.getitem (-k)).isSome = true ∧
        sampleObsB.getitem (-k) = sampleObsB.getitem ((sampleObsB.len : Int) - k)) :=
  C10_negative_wrap sampleRaw 3 5 2 true
    ⟨rfl, rfl, rfl, rfl, rfl, rfl, rfl, rfl, rfl, rfl⟩
    (by decide) (by decide) _ rfl sampleFlat sampleObsB rfl

/-- C9: construction is deterministic — two Mode A instances built from
the same raw buffer, the same `seq_len` and the same `train` flag agree
on `Size()` and on `Get(i)` for every `i`, and likewise two Mode B
instances built from the same flat buffer and the same `train` flag. -/
theorem C9_deterministic {α : Type} [Inhabited α] (raw : RawRollout α) (L : Nat)
    (tr : Bool) (d1 d2 : RolloutSequenceDataset α)
    (h1 : d1 = RolloutSequenceDataset.init raw L tr)
    (h2 : d2 = RolloutSequenceDataset.init raw L tr)
    (flat : List α) :
    d1.len = d2.len ∧ (∀ i : Int, d1.getitem i = d2.getitem i) ∧
    (∀ b1 b2 : RolloutObservationDataset α,
        RolloutObservationDataset.init flat tr = some b1 →
        RolloutObservationDataset.init flat tr = some b2 →
        b1.len = b2.len ∧ ∀ i : Int, b1.getitem i = b2.getitem i) := by
  subst h1
  subst h2
  refine ⟨rfl, fun i => rfl, ?_⟩
  intro b1 b2 hb1 hb2
  rw [hb1] at hb2
  injection hb2 with hb
  subst hb
  exact ⟨rfl, fun i => rfl⟩

/-- C9 witness: the theorem applied to the fixtures `sampleRaw`
(`seq_len = 2`, train) and `sampleFlat`. -/
theorem C9_deterministic_witness :
    (RolloutSequenceDataset.init sampleRaw 2 true).len
        = (RolloutSequenceDataset.init sampleRaw 2 true).len ∧
    (∀ i : Int, (RolloutSequenceDataset.init sampleRaw 2 true).getitem i
        = (RolloutSequenceDataset.init sampleRaw 2 true).getitem i) ∧
    (∀ b1 b2 : RolloutObservationDataset Nat,
        RolloutObservationDataset.init sampleFlat true = some b1 →
        RolloutObservationDataset.init sampleFlat true = some b2 →
        b1.len = b2.len ∧ ∀ i : Int, b1.getitem i = b2.getitem i) :=
  C9_deterministic sampleRaw 2 true _ _ rfl rfl sampleFlat
